import Mathlib

/-!
Shallow embedding of the streaming learning-path service (`main.py`).

The program chains two external collaborators — a generative text model
(`call_gemini_with_schema`) and a video-search backend (`yt_dlp`, wrapped by
`search_youtube_sync`) — into a streaming pipeline (`stream_generator`) with a
result cache keyed by the normalized topic (`CACHE`, here threaded as explicit
state). The two collaborators are modelled by an environment `Env` of oracle
functions; every construct of the pipeline itself (schema validation, URL
filtering, per-lesson fan-out, per-module skip-on-failure, the error chunk,
the cache check and the cache write) is translated directly from the source.
Each request additionally returns the list of external calls it performed,
so that "no external call is made" is a provable statement.
-/

deriving instance DecidableEq for Except

namespace LearnPath

/-- Minimal JSON value model: exactly the shapes the pydantic schema
validation of this program distinguishes (strings, arrays, objects, null). -/
inductive Json where
  | null : Json
  | str : String → Json
  | arr : List Json → Json
  | obj : List (String × Json) → Json

/-- A raw video record produced by the search backend, restricted to the
fields this program consumes (`entry.get('url')`, `VideoInfo(**video)`):
each relevant field may be absent. -/
structure RawVideo where
  title : Option String
  url : Option String
  thumbnail : Option String
deriving DecidableEq

/-- `class VideoInfo(BaseModel)` (main.py lines 43-47): required `title`,
required `url`, optional `thumbnail`. These are all of its fields. -/
structure VideoInfo where
  title : String
  url : String
  thumbnail : Option String
deriving DecidableEq

/-- `class Lesson(BaseModel)` (main.py lines 48-50). -/
structure Lesson where
  lesson_title : String
  videos : List VideoInfo
deriving DecidableEq

/-- `class Module(BaseModel)` (main.py lines 51-53). -/
structure Module where
  module_title : String
  lessons : List Lesson
deriving DecidableEq

/-- `VideoInfo.model_dump()` as a key/value record, in pydantic field order;
an unset optional field serializes as null. -/
def VideoInfo.model_dump (v : VideoInfo) : List (String × Json) :=
  [("title", Json.str v.title), ("url", Json.str v.url),
   ("thumbnail", match v.thumbnail with | none => Json.null | some s => Json.str s)]

/-- Pydantic: a value validates as an object or fails. -/
def asObj : Json → Except String (List (String × Json))
  | .obj fs => .ok fs
  | _ => .error "Input should be a valid dictionary"

/-- Pydantic: a value validates as a list or fails. -/
def asArr : Json → Except String (List Json)
  | .arr xs => .ok xs
  | _ => .error "Input should be a valid list"

/-- Pydantic: a value validates as a string or fails. -/
def asStr : Json → Except String String
  | .str s => .ok s
  | _ => .error "Input should be a valid string"

/-- Required-field lookup of pydantic object validation (first binding wins). -/
def getField : List (String × Json) → String → Except String Json
  | [], k => .error ("Field required: " ++ k)
  | (k2, v) :: rest, k => if k2 = k then .ok v else getField rest k

/-- Sequential element-wise validation of a list, first error wins — the
semantics pydantic gives `List[...]` fields. -/
def exceptMap (f : α → Except String β) : List α → Except String (List β)
  | [] => .ok []
  | a :: as =>
    match f a with
    | .error e => .error e
    | .ok b =>
      match exceptMap f as with
      | .error e => .error e
      | .ok rest => .ok (b :: rest)

/-- `class AIModuleTitle(BaseModel): module_title: str` — validation of one
element, projected to the title the pipeline reads. -/
def validateModuleTitle (j : Json) : Except String String :=
  match asObj j with
  | .error e => .error e
  | .ok fs =>
    match getField fs "module_title" with
    | .error e => .error e
    | .ok v => asStr v

/-- `AIModuleListSchema.model_validate_json` — an object with a `modules`
list of `AIModuleTitle`; note that no length bound is declared on the list. -/
def validateModuleList (j : Json) : Except String (List String) :=
  match asObj j with
  | .error e => .error e
  | .ok fs =>
    match getField fs "modules" with
    | .error e => .error e
    | .ok v =>
      match asArr v with
      | .error e => .error e
      | .ok xs => exceptMap validateModuleTitle xs

/-- `class AILessonTitle(BaseModel): lesson_title: str` — one element. -/
def validateLessonTitle (j : Json) : Except String String :=
  match asObj j with
  | .error e => .error e
  | .ok fs =>
    match getField fs "lesson_title" with
    | .error e => .error e
    | .ok v => asStr v

/-- `AILessonListSchema.model_validate_json` — an object with a `lessons`
list of `AILessonTitle`; again no length bound is declared. -/
def validateLessonList (j : Json) : Except String (List String) :=
  match asObj j with
  | .error e => .error e
  | .ok fs =>
    match getField fs "lessons" with
    | .error e => .error e
    | .ok v =>
      match asArr v with
      | .error e => .error e
      | .ok xs => exceptMap validateLessonTitle xs

/-- The two external collaborators.
`genResponse p` models `model.generate_content_async(p, ...)` followed by
reading `response.text` and parsing it as JSON: an error collapses network
failure, empty content and unparsable text. `search q` models
`ydl.extract_info(q, download=False)` returning the `entries` list (entries
may be falsy, hence `Option`); an error is an exception in the backend. -/
structure Env where
  genResponse : String → Except String Json
  search : String → Except String (List (Option RawVideo))

/-- `call_gemini_with_schema(prompt, response_schema)` (main.py lines 91-97):
generate, then validate against the schema; either step can fail. -/
def call_gemini_with_schema (env : Env) (prompt : String)
    (validate : Json → Except String α) : Except String α :=
  match env.genResponse prompt with
  | .error e => .error e
  | .ok response => validate response

/-- `search_query = f"ytsearch{max_results}:{keywords}"` (main.py line 75). -/
def search_query (max_results : Nat) (keywords : String) : String :=
  "ytsearch" ++ toString max_results ++ ":" ++ keywords

/-- `search_youtube_sync` (main.py lines 60-85): run the backend on the
search query; on success keep the truthy entries
(`[entry for entry in result.get('entries', []) if entry]`);
on any exception return the empty list. -/
def search_youtube_sync (env : Env) (keywords : String)
    (max_results : Nat := 3) : List RawVideo :=
  match env.search (search_query max_results keywords) with
  | .error _ => []
  | .ok entries => entries.filterMap id

/-- `search_youtube_async` (main.py lines 87-89): same computation, run on
the executor; its value is that of `search_youtube_sync`. -/
def search_youtube_async (env : Env) (keywords : String)
    (max_results : Nat := 3) : List RawVideo :=
  search_youtube_sync env keywords max_results

/-- Truthiness of `video.get('url')` (main.py line 145): present and
non-empty. -/
def urlTruthy (v : RawVideo) : Bool :=
  match v.url with
  | some u => u != ""
  | none => false

/-- `VideoInfo(**video)` (main.py line 145): pydantic requires `title` and
`url` to be present strings; `thumbnail` is optional; other keys of the raw
record are ignored. A missing required field raises a validation error. -/
def videoInfoOfRaw (v : RawVideo) : Except String VideoInfo :=
  match v.title, v.url with
  | some t, some u => .ok { title := t, url := u, thumbnail := v.thumbnail }
  | _, _ => .error "validation error for VideoInfo"

/-- `[VideoInfo(**video) for video in video_search_results[i] if video.get('url')]`
(main.py line 145): drop entries without a truthy url, wrap the rest. -/
def buildVideos (raw : List RawVideo) : Except String (List VideoInfo) :=
  exceptMap videoInfoOfRaw (raw.filter urlTruthy)

/-- The assembly loop over `enumerate(lesson_list_response.lessons)`
(main.py lines 143-146), pairing each lesson title with its slot of the
gathered search results. An out-of-range index or a failing
`VideoInfo(**video)` propagates as an exception. -/
def buildLessons : List String → List (List RawVideo) → Except String (List Lesson)
  | [], _ => .ok []
  | _ :: _, [] => .error "list index out of range"
  | t :: ts, r :: rs =>
    match buildVideos r with
    | .error e => .error e
    | .ok vs =>
      match buildLessons ts rs with
      | .error e => .error e
      | .ok rest => .ok ({ lesson_title := t, videos := vs } :: rest)

/-- `module_prompt` (main.py line 121). -/
def module_prompt (topic : String) : String :=
  "Generate 3-5 module titles for a course on '" ++ topic ++ "'."

/-- `lesson_prompt` (main.py line 132); it uses only the module title. -/
def lesson_prompt (module_title : String) : String :=
  "Generate 3-5 lesson titles for the module '" ++ module_title ++ "'."

/-- One recorded external call: an Outline Generator (Gemini) call with its
prompt, or a Video Resolver (YouTube search) call with its keywords. -/
inductive Call where
  | gen : String → Call
  | search : String → Call
deriving DecidableEq

/-- Outcome of the per-module body of the streaming loop. -/
inductive ModuleStep where
  | skipped : ModuleStep
  | emitted : Module → ModuleStep
  | crashed : String → ModuleStep
deriving DecidableEq

/-- The body of the `for module_title_obj in module_list_response.modules`
loop (main.py lines 129-153): fetch the lesson list (a failure skips the
module via `continue`), gather one search per lesson, assemble the lessons
and the module. Returns the outcome and the external calls performed. -/
def process_module (env : Env) (module_title : String) : ModuleStep × List Call :=
  match call_gemini_with_schema env (lesson_prompt module_title) validateLessonList with
  | .error _ => (.skipped, [.gen (lesson_prompt module_title)])
  | .ok lesson_titles =>
    let video_search_results :=
      lesson_titles.map (fun t => search_youtube_async env t)
    let calls := Call.gen (lesson_prompt module_title)
      :: lesson_titles.map Call.search
    match buildLessons lesson_titles video_search_results with
    | .error e => (.crashed e, calls)
    | .ok final_lessons =>
      (.emitted { module_title := module_title, lessons := final_lessons }, calls)

/-- The module loop: emitted modules in order, the error of an uncaught
mid-loop exception if one occurred (the loop stops there), and the external
calls performed. -/
def run_modules (env : Env) : List String → List Module × Option String × List Call
  | [] => ([], none, [])
  | mt :: rest =>
    match process_module env mt with
    | (.skipped, cs) =>
      let r := run_modules env rest
      (r.1, r.2.1, cs ++ r.2.2)
    | (.emitted m, cs) =>
      let r := run_modules env rest
      (m :: r.1, r.2.1, cs ++ r.2.2)
    | (.crashed err, cs) => ([], some err, cs)

/-- Result of running `stream_generator` to exhaustion: a fatal module-list
failure (one error record, nothing cached), a completed run (its emitted
module chunks, cached at the end), or an uncaught mid-loop exception (the
chunks already emitted; nothing cached). -/
inductive StreamResult where
  | fatal : String → StreamResult
  | complete : List Module → StreamResult
  | crashed : List Module → String → StreamResult
deriving DecidableEq

/-- `stream_generator` (main.py lines 116-158), run to exhaustion: fetch the
module list (on failure emit the single error record and stop), then run the
module loop. Returns the result together with the external calls made. -/
def stream_generator (env : Env) (topic : String) : StreamResult × List Call :=
  match call_gemini_with_schema env (module_prompt topic) validateModuleList with
  | .error e =>
    (.fatal ("Failed to generate modules: " ++ e), [.gen (module_prompt topic)])
  | .ok module_titles =>
    match run_modules env module_titles with
    | (ms, some err, cs) => (.crashed ms err, Call.gen (module_prompt topic) :: cs)
    | (ms, none, cs) => (.complete ms, Call.gen (module_prompt topic) :: cs)

/-- One line of the x-ndjson stream: a serialized module chunk, or the
single `{"error": ...}` record. -/
inductive Chunk where
  | moduleChunk : Module → Chunk
  | errorChunk : String → Chunk
deriving DecidableEq

/-- The ordered records a `stream_generator` run yields on the wire. -/
def streamChunks : StreamResult → List Chunk
  | .fatal e => [.errorChunk e]
  | .complete ms => ms.map Chunk.moduleChunk
  | .crashed ms _ => ms.map Chunk.moduleChunk

/-- The module-level `CACHE` dict, threaded as state; a write prepends, a
lookup takes the newest binding, which matches dict assignment/lookup. -/
abbrev Cache := List (String × List Module)

/-- Python `str.lower()`: lower-case every character. -/
def pyLower (s : String) : String := String.mk (s.data.map Char.toLower)

/-- Python `str.strip()`: drop whitespace from both ends. -/
def pyStrip (s : String) : String :=
  String.mk (((s.data.dropWhile Char.isWhitespace).reverse.dropWhile
    Char.isWhitespace).reverse)

/-- `topic_key = request.topic.lower().strip()` (main.py line 105). -/
def topic_key (topic : String) : String := pyStrip (pyLower topic)

/-- What the endpoint answers: the 422 validation rejection raised by
`LearningRequest` before the handler body runs, a cache-hit replay of the
stored chunks, or a live streaming run. -/
inductive Response where
  | rejected : Response
  | cachedStream : List Module → Response
  | liveStream : StreamResult → Response
deriving DecidableEq

/-- The records a response yields on the wire (a cached replay re-serializes
the stored chunk objects in stored order). -/
def responseChunks : Response → List Chunk
  | .rejected => []
  | .cachedStream ms => ms.map Chunk.moduleChunk
  | .liveStream r => streamChunks r

/-- `generate_learning_path_stream` (main.py lines 101-160), with the
response stream consumed to exhaustion: `LearningRequest` validation
(`min_length=5`) rejects short topics before the handler runs; a cache hit
replays the stored chunks and calls no collaborator; otherwise the live
stream runs and, only when it completes its module loop, commits its chunk
list to the cache under the normalized key (main.py line 157). -/
def generate_learning_path_stream (cache : Cache) (env : Env) (topic : String) :
    Response × Cache × List Call :=
  if topic.length < 5 then
    (.rejected, cache, [])
  else
    match List.lookup (topic_key topic) cache with
    | some chunks => (.cachedStream chunks, cache, [])
    | none =>
      match stream_generator env topic with
      | (.complete ms, calls) =>
        (.liveStream (.complete ms), (topic_key topic, ms) :: cache, calls)
      | (r, calls) => (.liveStream r, cache, calls)

/-- Scheduled model of `asyncio.gather` used by the fan-out (main.py lines
138-140): task `j` computes `f j` and, when it completes, stores its value
in slot `j`; `order` is the completion order. -/
def fillSlots (f : Nat → α) (order : List Nat) : Nat → Option α :=
  order.foldl (fun s j => Function.update s j (some (f j))) (fun _ => none)

/-- The join: read the N slots in index order; `none` if a task has not
completed (gather would still be waiting). -/
def collectSlots : List Nat → (Nat → Option α) → Option (List α)
  | [], _ => some []
  | i :: is, s =>
    match s i, collectSlots is s with
    | some v, some vs => some (v :: vs)
    | _, _ => none

/-- `await asyncio.gather(*search_tasks)` under completion order `order`:
launch slots 0..n-1, let them complete in `order`, then join in index
order. -/
def gatherScheduled (f : Nat → α) (n : Nat) (order : List Nat) : Option (List α) :=
  collectSlots (List.range n) (fillSlots f order)

/-- The fan-out of one module (main.py lines 138-140) under a given
completion order: one `search_youtube_async` task per lesson title. -/
def fanOutVideos (env : Env) (lessons : List String) (order : List Nat) :
    Option (List (List RawVideo)) :=
  gatherScheduled (fun j => search_youtube_async env (lessons.getD j ""))
    lessons.length order

/-- The value `asyncio.gather` returns once every task has completed:
results in task-index order; this is what `process_module` consumes. -/
def gatherResults (env : Env) (lessons : List String) : List (List RawVideo) :=
  lessons.map (fun t => search_youtube_async env t)

/-- Fallback lesson used for safe indexing in statements. -/
def defaultLesson : Lesson := { lesson_title := "", videos := [] }

/-- A schema-conforming module-list response carrying exactly the given
titles. -/
def encodeModuleList (ts : List String) : Json :=
  Json.obj [("modules",
    Json.arr (ts.map fun t => Json.obj [("module_title", Json.str t)]))]

/-- A schema-conforming lesson-list response carrying exactly the given
titles. -/
def encodeLessonList (ts : List String) : Json :=
  Json.obj [("lessons",
    Json.arr (ts.map fun t => Json.obj [("lesson_title", Json.str t)]))]

/-! ### Helper lemmas -/

theorem lookup_cons_self (k : String) (v : List Module) (c : Cache) :
    List.lookup k ((k, v) :: c) = some v := by
  simp [List.lookup]

theorem foldl_update_apply (f : Nat → α) :
    ∀ (order : List Nat) (s : Nat → Option α) (i : Nat),
      (order.foldl (fun s j => Function.update s j (some (f j))) s) i
        = if i ∈ order then some (f i) else s i := by
  intro order
  induction order with
  | nil => intro s i; simp
  | cons j rest ih =>
    intro s i
    rw [List.foldl_cons, ih]
    by_cases hmem : i ∈ rest
    · simp [hmem]
    · by_cases hij : i = j
      · subst hij
        simp [hmem, Function.update_same]
      · simp [hmem, hij, Function.update_noteq hij]

theorem fillSlots_apply (f : Nat → α) (order : List Nat) (i : Nat) :
    fillSlots f order i = if i ∈ order then some (f i) else none :=
  foldl_update_apply f order (fun _ => none) i

theorem collectSlots_eq_map (s : Nat → Option α) (g : Nat → α) :
    ∀ l : List Nat, (∀ i, i ∈ l → s i = some (g i)) →
      collectSlots l s = some (l.map g) := by
  intro l
  induction l with
  | nil => intro _; rfl
  | cons a l ih =>
    intro h
    have ha := h a (List.mem_cons_self a l)
    have hl := ih (fun i hi => h i (List.mem_cons_of_mem a hi))
    simp [collectSlots, ha, hl]

theorem getD_map_of_lt (g : α → β) (d : α) (e : β) :
    ∀ (l : List α) (j : Nat), j < l.length →
      (l.map g).getD j e = g (l.getD j d) := by
  intro l
  induction l with
  | nil => intro j hj; exact absurd hj (Nat.not_lt_zero j)
  | cons a l ih =>
    intro j hj
    cases j with
    | zero => rfl
    | succ j =>
      simp only [List.map_cons, List.getD_cons_succ]
      exact ih j (Nat.lt_of_succ_lt_succ hj)

theorem map_getD_range (g : α → β) (d : α) :
    ∀ l : List α,
      (List.range l.length).map (fun i => g (l.getD i d)) = l.map g := by
  intro l
  induction l with
  | nil => rfl
  | cons a l ih =>
    rw [List.length_cons, List.range_succ_eq_map, List.map_cons, List.map_map,
      List.map_cons]
    refine congrArg₂ List.cons rfl ?_
    rw [← ih]
    rfl

theorem run_modules_append (env : Env) :
    ∀ xs ys : List String, (run_modules env xs).2.1 = none →
      run_modules env (xs ++ ys)
        = ((run_modules env xs).1 ++ (run_modules env ys).1,
           (run_modules env ys).2.1,
           (run_modules env xs).2.2 ++ (run_modules env ys).2.2) := by
  intro xs
  induction xs with
  | nil => intro ys _; simp [run_modules]
  | cons mt rest ih =>
    intro ys h
    cases hpm : process_module env mt with
    | mk step cs =>
      cases step with
      | skipped =>
        have h2 : (run_modules env rest).2.1 = none := by
          simpa [run_modules, hpm] using h
        simp [run_modules, hpm, ih ys h2]
      | emitted m =>
        have h2 : (run_modules env rest).2.1 = none := by
          simpa [run_modules, hpm] using h
        simp [run_modules, hpm, ih ys h2]
      | crashed e =>
        exfalso
        simp [run_modules, hpm] at h

theorem buildLessons_ok :
    ∀ (ts : List String) (rs : List (List RawVideo)) (ls : List Lesson),
      buildLessons ts rs = .ok ls →
      ls.length = ts.length ∧
      ∀ j, j < ts.length →
        (ls.getD j defaultLesson).lesson_title = ts.getD j "" ∧
        buildVideos (rs.getD j []) = .ok ((ls.getD j defaultLesson).videos) := by
  intro ts
  induction ts with
  | nil =>
    intro rs ls h
    have hls : ls = [] := by
      simpa [buildLessons] using h.symm
    subst hls
    exact ⟨rfl, fun j hj => absurd hj (Nat.not_lt_zero j)⟩
  | cons t ts ih =>
    intro rs ls h
    cases rs with
    | nil => simp [buildLessons] at h
    | cons r rs =>
      cases hv : buildVideos r with
      | error e => simp [buildLessons, hv] at h
      | ok vs =>
        cases hrest : buildLessons ts rs with
        | error e => simp [buildLessons, hv, hrest] at h
        | ok rest =>
          have hls : ls = { lesson_title := t, videos := vs } :: rest := by
            simpa [buildLessons, hv, hrest] using h.symm
          subst hls
          obtain ⟨hlen, hspec⟩ := ih rs rest hrest
          refine ⟨by simpa using hlen, ?_⟩
          intro j hj
          cases j with
          | zero => exact ⟨rfl, by simpa [defaultLesson] using hv⟩
          | succ j =>
            have hj2 : j < ts.length := Nat.lt_of_succ_lt_succ hj
            simpa [List.getD_cons_succ] using hspec j hj2

theorem exceptMap_moduleTitles :
    ∀ ts : List String,
      exceptMap validateModuleTitle
        (ts.map fun t => Json.obj [("module_title", Json.str t)]) = .ok ts := by
  intro ts
  induction ts with
  | nil => rfl
  | cons t ts ih =>
    have hvt : validateModuleTitle (Json.obj [("module_title", Json.str t)])
        = .ok t := rfl
    rw [List.map_cons, exceptMap, hvt, ih]

theorem exceptMap_lessonTitles :
    ∀ ts : List String,
      exceptMap validateLessonTitle
        (ts.map fun t => Json.obj [("lesson_title", Json.str t)]) = .ok ts := by
  intro ts
  induction ts with
  | nil => rfl
  | cons t ts ih =>
    have hvt : validateLessonTitle (Json.obj [("lesson_title", Json.str t)])
        = .ok t := rfl
    rw [List.map_cons, exceptMap, hvt, ih]

theorem validate_encodeModuleList (ts : List String) :
    validateModuleList (encodeModuleList ts) = .ok ts :=
  exceptMap_moduleTitles ts

theorem validate_encodeLessonList (ts : List String) :
    validateLessonList (encodeLessonList ts) = .ok ts :=
  exceptMap_lessonTitles ts

/-! ### Claim theorems -/

/-- C1. Cache round-trip: after a streaming run for a topic completes (and
is therefore committed to the cache under its normalized key), any second
streaming request whose topic normalizes identically yields the identical
ordered sequence of module chunks, and performs no external call at all —
in particular neither the Outline Generator nor the Video Resolver is
invoked (its call list is empty). -/
theorem cache_round_trip (cache : Cache) (env env2 : Env)
    (topic topic2 : String) (ms : List Module) (calls : List Call)
    (h5 : ¬ topic.length < 5)
    (hmiss : List.lookup (topic_key topic) cache = none)
    (hrun : stream_generator env topic = (.complete ms, calls))
    (h5b : ¬ topic2.length < 5)
    (hkey : topic_key topic2 = topic_key topic) :
    generate_learning_path_stream cache env topic
      = (.liveStream (.complete ms), (topic_key topic, ms) :: cache, calls) ∧
    generate_learning_path_stream ((topic_key topic, ms) :: cache) env2 topic2
      = (.cachedStream ms, (topic_key topic, ms) :: cache, []) ∧
    responseChunks (Response.cachedStream ms)
      = streamChunks (StreamResult.complete ms) := by
  refine ⟨?_, ?_, rfl⟩
  · simp [generate_learning_path_stream, h5, hmiss, hrun]
  · simp [generate_learning_path_stream, h5b, hkey, lookup_cons_self]

/-- C2. Fan-out ordering: under any completion order of the per-lesson
search tasks (any permutation of the task indices), the join returns
exactly the sequence `asyncio.gather` hands to the assembly code, and slot
`i` of that sequence is the search result for lesson `i`. -/
theorem fan_out_ordering (env : Env) (lessons : List String)
    (order : List Nat) (i : Nat)
    (hperm : order.Perm (List.range lessons.length))
    (hi : i < lessons.length) :
    fanOutVideos env lessons order = some (gatherResults env lessons) ∧
    (gatherResults env lessons).getD i []
      = search_youtube_async env (lessons.getD i "") := by
  constructor
  · unfold fanOutVideos gatherScheduled
    rw [collectSlots_eq_map _ (fun j => search_youtube_async env (lessons.getD j ""))]
    · exact congrArg some
        (map_getD_range (fun t => search_youtube_async env t) "" lessons)
    · intro j hj
      rw [fillSlots_apply]
      have hmem : j ∈ order := hperm.mem_iff.mpr hj
      simp [hmem]
  · exact getD_map_of_lt _ "" [] lessons i hi

/-- C3. Fatal module-list failure: when the module-title generation call
fails, the streaming endpoint emits exactly one error record, the stream
ends there, and the cache is left unchanged (no entry is created for the
topic's key). -/
theorem fatal_module_list_failure (cache : Cache) (env : Env)
    (topic e : String)
    (h5 : ¬ topic.length < 5)
    (hmiss : List.lookup (topic_key topic) cache = none)
    (hfail : call_gemini_with_schema env (module_prompt topic) validateModuleList
      = .error e) :
    generate_learning_path_stream cache env topic
      = (.liveStream (.fatal ("Failed to generate modules: " ++ e)), cache,
         [.gen (module_prompt topic)]) ∧
    streamChunks (.fatal ("Failed to generate modules: " ++ e))
      = [.errorChunk ("Failed to generate modules: " ++ e)] ∧
    List.lookup (topic_key topic) cache = none := by
  refine ⟨?_, rfl, hmiss⟩
  simp [generate_learning_path_stream, h5, hmiss, stream_generator, hfail]

/-- C4. Video-search failure containment: when the backend search for the
lesson at index `i` raises, `search_youtube_sync` absorbs the failure into
an empty result list; if the module is emitted, it has one lesson per
lesson title, the lesson at index `i` still appears with `videos = []`,
and every lesson `j` carries its own title and exactly the videos built
from its own search result (so siblings are unaffected). -/
theorem video_failure_containment (env : Env) (mt : String)
    (ts : List String) (i j : Nat) (msg : String) (m : Module)
    (calls : List Call)
    (hts : call_gemini_with_schema env (lesson_prompt mt) validateLessonList
      = .ok ts)
    (hi : i < ts.length) (hj : j < ts.length)
    (hfail : env.search (search_query 3 (ts.getD i "")) = .error msg)
    (hem : process_module env mt = (.emitted m, calls)) :
    search_youtube_sync env (ts.getD i "") = [] ∧
    m.lessons.length = ts.length ∧
    (m.lessons.getD i defaultLesson).videos = [] ∧
    (m.lessons.getD j defaultLesson).lesson_title = ts.getD j "" ∧
    buildVideos (search_youtube_sync env (ts.getD j ""))
      = .ok ((m.lessons.getD j defaultLesson).videos) := by
  have hsync : search_youtube_sync env (ts.getD i "") = [] := by
    unfold search_youtube_sync
    rw [hfail]
  unfold process_module at hem
  simp only [hts] at hem
  cases hbl : buildLessons ts (ts.map fun t => search_youtube_async env t) with
  | error e => rw [hbl] at hem; simp at hem
  | ok ls =>
    rw [hbl] at hem
    simp only [Prod.mk.injEq, ModuleStep.emitted.injEq] at hem
    obtain ⟨hm, _⟩ := hem
    obtain ⟨hlen, hspec⟩ := buildLessons_ok ts _ ls hbl
    have hmls : m.lessons = ls := by rw [← hm]
    have hmapD : ∀ k, k < ts.length →
        (ts.map fun t => search_youtube_async env t).getD k []
          = search_youtube_sync env (ts.getD k "") := by
      intro k hk
      exact getD_map_of_lt _ "" [] ts k hk
    refine ⟨hsync, by rw [hmls]; exact hlen, ?_, ?_, ?_⟩
    · obtain ⟨_, hvi⟩ := hspec i hi
      rw [hmapD i hi, hsync] at hvi
      have : ([] : List VideoInfo) = (ls.getD i defaultLesson).videos := by
        have hb : buildVideos [] = Except.ok ([] : List VideoInfo) := rfl
        rw [hb] at hvi
        exact Except.ok.inj hvi
      rw [hmls, ← this]
    · obtain ⟨ht, _⟩ := hspec j hj
      rw [hmls]; exact ht
    · obtain ⟨_, hvj⟩ := hspec j hj
      rw [hmapD j hj] at hvj
      rw [hmls]; exact hvj

/-- C5. Partial failure containment: when lesson-list generation fails for
one module, that module is skipped silently — the emitted chunk sequence
is exactly the chunks of the earlier modules followed by the chunks of the
later modules, so the failed module is absent (not present with empty
lessons) — and the remaining modules are processed exactly as they would
be on their own. -/
theorem partial_failure_containment (env : Env) (pre post : List String)
    (mt : String)
    (hskip : (process_module env mt).1 = ModuleStep.skipped)
    (hpre : (run_modules env pre).2.1 = none) :
    (run_modules env (pre ++ mt :: post)).1
      = (run_modules env pre).1 ++ (run_modules env post).1 ∧
    (run_modules env (pre ++ mt :: post)).2.1
      = (run_modules env post).2.1 := by
  have h1 : (run_modules env (mt :: post)).1 = (run_modules env post).1 := by
    cases hpm : process_module env mt with
    | mk step cs =>
      rw [hpm] at hskip
      cases step with
      | skipped => simp [run_modules, hpm]
      | emitted m => simp at hskip
      | crashed e => simp at hskip
  have h2 : (run_modules env (mt :: post)).2.1 = (run_modules env post).2.1 := by
    cases hpm : process_module env mt with
    | mk step cs =>
      rw [hpm] at hskip
      cases step with
      | skipped => simp [run_modules, hpm]
      | emitted m => simp at hskip
      | crashed e => simp at hskip
  rw [run_modules_append env pre (mt :: post) hpre]
  exact ⟨by rw [h1], by rw [h2]⟩

/-- C6. Request validation: a request whose topic has fewer than 5
characters is rejected by the `LearningRequest` model at the request
boundary: the handler body never runs, no external call is made (the call
list is empty), and the cache is untouched. -/
theorem request_validation_min_length (cache : Cache) (env : Env)
    (topic : String) (h : topic.length < 5) :
    generate_learning_path_stream cache env topic
      = (.rejected, cache, []) := by
  simp [generate_learning_path_stream, h]

/-- Environment for the C7 counterexample: the text model answers the
module-list call with a schema-conforming response containing zero
modules. -/
def envC7 : Env :=
  { genResponse := fun _ => .ok (encodeModuleList [])
    search := fun _ => .ok [] }

/-- C7 counterexample: the module-title generation can return a validated
sequence of length 0 — the pydantic schema accepts it, so the claimed
3-to-5 length contract is not enforced by the code. -/
theorem generator_length_contract_counterexample :
    call_gemini_with_schema envC7 (module_prompt "I want to learn about Black Holes")
      validateModuleList = .ok ([] : List String) ∧
    ¬ 3 ≤ ([] : List String).length :=
  ⟨rfl, by decide⟩

/-- C7 (amended). The prompts ask the model for 3-5 titles, but the
schemas (`AIModuleListSchema`, `AILessonListSchema`) declare no length
bound: a schema-conforming response carrying any number of module or
lesson titles — zero included — validates, and the generation call
returns it unchanged. -/
theorem generator_length_unenforced (env : Env) (pm pl : String)
    (ts ls : List String)
    (hm : env.genResponse pm = .ok (encodeModuleList ts))
    (hl : env.genResponse pl = .ok (encodeLessonList ls)) :
    call_gemini_with_schema env pm validateModuleList = .ok ts ∧
    call_gemini_with_schema env pl validateLessonList = .ok ls := by
  constructor
  · unfold call_gemini_with_schema
    rw [hm]
    exact validate_encodeModuleList ts
  · unfold call_gemini_with_schema
    rw [hl]
    exact validate_encodeLessonList ls

/-- C8 counterexample: a concrete `VideoInfo` serializes without any
`duration` key — the model has no such field. -/
theorem videoinfo_duration_counterexample :
    ¬ "duration" ∈ (VideoInfo.model_dump
      { title := "t", url := "http://u", thumbnail := none }).map Prod.fst := by
  decide

/-- C8 (amended). Every `VideoInfo` has a required title and a required
url; its serialized record carries exactly the keys `title`, `url` and the
optional `thumbnail` — there is no `duration` field; and a raw entry
without a truthy url is dropped before wrapping, leaving the others
untouched. -/
theorem videoinfo_shape (v : VideoInfo) (xs ys : List RawVideo)
    (bad : RawVideo) (hbad : urlTruthy bad = false) :
    (VideoInfo.model_dump v).map Prod.fst = ["title", "url", "thumbnail"] ∧
    ¬ "duration" ∈ (VideoInfo.model_dump v).map Prod.fst ∧
    buildVideos (xs ++ bad :: ys) = buildVideos (xs ++ ys) := by
  refine ⟨rfl, ?_, ?_⟩
  · have h : (VideoInfo.model_dump v).map Prod.fst
        = ["title", "url", "thumbnail"] := rfl
    rw [h]
    decide
  · simp [buildVideos, List.filter_append, List.filter_cons, hbad]

/-- C9. Implicit empty-module-list behavior: when module-title generation
succeeds with an empty list, the streaming run emits zero module chunks
and still commits the empty chunk sequence to the cache under the
normalized topic key, and every subsequent request normalizing to that
key is served the empty replayed stream with no external call. -/
theorem empty_module_list_cached (cache : Cache) (env env2 : Env)
    (topic topic2 : String)
    (h5 : ¬ topic.length < 5)
    (hmiss : List.lookup (topic_key topic) cache = none)
    (hempty : call_gemini_with_schema env (module_prompt topic) validateModuleList
      = .ok ([] : List String))
    (h5b : ¬ topic2.length < 5)
    (hkey : topic_key topic2 = topic_key topic) :
    generate_learning_path_stream cache env topic
      = (.liveStream (.complete []), (topic_key topic, ([] : List Module)) :: cache,
         [.gen (module_prompt topic)]) ∧
    streamChunks (.complete []) = [] ∧
    generate_learning_path_stream ((topic_key topic, ([] : List Module)) :: cache)
        env2 topic2
      = (.cachedStream [], (topic_key topic, ([] : List Module)) :: cache, []) := by
  refine ⟨?_, rfl, ?_⟩
  · simp [generate_learning_path_stream, h5, hmiss, stream_generator, hempty,
      run_modules]
  · simp [generate_learning_path_stream, h5b, hkey, lookup_cons_self]

/-- C10. Implicit raw-length check: the 5-character minimum is applied to
the raw topic before normalization, so a padded topic whose normalized key
is shorter than 5 characters is accepted, processed live, and its result
is cached under that shorter-than-5 key. -/
theorem raw_topic_length_check (cache : Cache) (env : Env) (topic : String)
    (ms : List Module) (calls : List Call)
    (h5 : 5 ≤ topic.length)
    (hshort : (topic_key topic).length < 5)
    (hmiss : List.lookup (topic_key topic) cache = none)
    (hrun : stream_generator env topic = (.complete ms, calls)) :
    generate_learning_path_stream cache env topic
      = (.liveStream (.complete ms), (topic_key topic, ms) :: cache, calls) ∧
    (topic_key topic).length < 5 := by
  refine ⟨?_, hshort⟩
  have h5b : ¬ topic.length < 5 := Nat.not_lt.mpr h5
  simp [generate_learning_path_stream, h5b, hmiss, hrun]

/-! ### Witness environments and witnesses -/

/-- An environment where both collaborators always fail. -/
def envErrAll : Env :=
  { genResponse := fun _ => .error "503"
    search := fun _ => .error "network" }

/-- The raw record the C1 witness search backend returns. -/
def rvC1 : RawVideo :=
  { title := some "v", url := some "http://u", thumbnail := none }

/-- Environment for the C1 witness: one module with one lesson and one
video. -/
def envC1 : Env :=
  { genResponse := fun p =>
      if p = module_prompt "  Black Holes " then .ok (encodeModuleList ["M1"])
      else if p = lesson_prompt "M1" then .ok (encodeLessonList ["L1"])
      else .error "quota"
    search := fun _ => .ok [some rvC1, none] }

/-- The module chunk the C1 witness environment produces. -/
def modC1 : Module :=
  { module_title := "M1"
    lessons := [{ lesson_title := "L1", videos := [{ title := "v", url := "http://u", thumbnail := none }] }] }

/-- Witness for C1 at a concrete run. -/
theorem cache_round_trip_witness :
    generate_learning_path_stream [] envC1 "  Black Holes "
      = (.liveStream (.complete [modC1]),
         [(topic_key "  Black Holes ", [modC1])],
         [.gen (module_prompt "  Black Holes "), .gen (lesson_prompt "M1"),
          .search "L1"]) ∧
    generate_learning_path_stream [(topic_key "  Black Holes ", [modC1])] envC1
        "black holes"
      = (.cachedStream [modC1], [(topic_key "  Black Holes ", [modC1])], []) ∧
    responseChunks (Response.cachedStream [modC1])
      = streamChunks (StreamResult.complete [modC1]) :=
  cache_round_trip [] envC1 envC1 "  Black Holes " "black holes" [modC1]
    [.gen (module_prompt "  Black Holes "), .gen (lesson_prompt "M1"), .search "L1"]
    (by decide) rfl (by decide) (by decide) (by decide)

/-- Witness for C2: three lessons whose middle search task completes last
(completion order 0, 2, 1). -/
theorem fan_out_ordering_witness :
    fanOutVideos envErrAll ["L1", "L2", "L3"] [0, 2, 1]
      = some (gatherResults envErrAll ["L1", "L2", "L3"]) ∧
    (gatherResults envErrAll ["L1", "L2", "L3"]).getD 1 []
      = search_youtube_async envErrAll (["L1", "L2", "L3"].getD 1 "") :=
  fan_out_ordering envErrAll ["L1", "L2", "L3"] [0, 2, 1] 1 (by decide) (by decide)

/-- Witness for C3 at a concrete failing run. -/
theorem fatal_module_list_failure_witness :
    generate_learning_path_stream [] envErrAll "Quantum Physics"
      = (.liveStream (.fatal ("Failed to generate modules: " ++ "503")), [],
         [.gen (module_prompt "Quantum Physics")]) ∧
    streamChunks (.fatal ("Failed to generate modules: " ++ "503"))
      = [.errorChunk ("Failed to generate modules: " ++ "503")] ∧
    List.lookup (topic_key "Quantum Physics") ([] : Cache) = none :=
  fatal_module_list_failure [] envErrAll "Quantum Physics" "503"
    (by decide) rfl rfl

/-- The raw record the C4 witness search backend returns on success. -/
def rvC4 : RawVideo :=
  { title := some "vid", url := some "http://v", thumbnail := none }

/-- Environment for the C4 witness: the search for lesson "X" raises, the
others return one usable video. -/
def envC4 : Env :=
  { genResponse := fun p =>
      if p = lesson_prompt "Gravity" then .ok (encodeLessonList ["W", "X", "Y"])
      else .error "quota"
    search := fun q =>
      if q = search_query 3 "X" then .error "network"
      else .ok [some rvC4] }

/-- The lesson with videos that the C4 witness environment produces. -/
def lessonC4 (t : String) : Lesson :=
  { lesson_title := t, videos := [{ title := "vid", url := "http://v", thumbnail := none }] }

/-- The module the C4 witness environment emits: lesson "X" survives with
no videos, its siblings keep theirs. -/
def modC4 : Module :=
  { module_title := "Gravity"
    lessons := [lessonC4 "W", { lesson_title := "X", videos := [] }, lessonC4 "Y"] }

/-- Witness for C4 at a concrete module. -/
theorem video_failure_containment_witness :
    search_youtube_sync envC4 ((["W", "X", "Y"] : List String).getD 1 "") = [] ∧
    modC4.lessons.length = (["W", "X", "Y"] : List String).length ∧
    (modC4.lessons.getD 1 defaultLesson).videos = [] ∧
    (modC4.lessons.getD 0 defaultLesson).lesson_title
      = (["W", "X", "Y"] : List String).getD 0 "" ∧
    buildVideos (search_youtube_sync envC4 ((["W", "X", "Y"] : List String).getD 0 ""))
      = .ok ((modC4.lessons.getD 0 defaultLesson).videos) :=
  video_failure_containment envC4 "Gravity" ["W", "X", "Y"] 1 0 "network" modC4
    [.gen (lesson_prompt "Gravity"), .search "W", .search "X", .search "Y"]
    (by decide) (by decide) (by decide) (by decide) (by decide)

/-- Environment for the C5 witness: lesson generation fails exactly for
module "M2". -/
def envC5 : Env :=
  { genResponse := fun p =>
      if p = lesson_prompt "M2" then .error "quota"
      else .ok (encodeLessonList ["L"])
    search := fun _ => .ok [] }

/-- Witness for C5: module 2 of 4 is skipped, modules 1, 3, 4 survive. -/
theorem partial_failure_containment_witness :
    (run_modules envC5 (["M1"] ++ "M2" :: ["M3", "M4"])).1
      = (run_modules envC5 ["M1"]).1 ++ (run_modules envC5 ["M3", "M4"]).1 ∧
    (run_modules envC5 (["M1"] ++ "M2" :: ["M3", "M4"])).2.1
      = (run_modules envC5 ["M3", "M4"]).2.1 :=
  partial_failure_containment envC5 ["M1"] ["M3", "M4"] "M2"
    (by decide) (by decide)

/-- Witness for C6 at a 2-character topic. -/
theorem request_validation_min_length_witness :
    generate_learning_path_stream [] envErrAll "ab" = (.rejected, [], []) ∧
    "ab".length < 5 :=
  ⟨request_validation_min_length [] envErrAll "ab" (by decide), by decide⟩

/-- Environment for the C7 amended-claim witness: zero modules for one
prompt, six lessons for any other. -/
def envC7w : Env :=
  { genResponse := fun p =>
      if p = "PM" then .ok (encodeModuleList [])
      else .ok (encodeLessonList ["a", "b", "c", "d", "e", "f"])
    search := fun _ => .ok [] }

/-- Witness for the amended C7: a validated module list of length 0 and a
validated lesson list of length 6. -/
theorem generator_length_unenforced_witness :
    call_gemini_with_schema envC7w "PM" validateModuleList
      = .ok ([] : List String) ∧
    call_gemini_with_schema envC7w "PL" validateLessonList
      = .ok ["a", "b", "c", "d", "e", "f"] :=
  generator_length_unenforced envC7w "PM" "PL" [] ["a", "b", "c", "d", "e", "f"]
    rfl rfl

/-- A raw entry with a usable url. -/
def rvGood : RawVideo :=
  { title := some "a", url := some "http://a", thumbnail := none }

/-- A raw entry with another usable url. -/
def rvGood2 : RawVideo :=
  { title := some "b", url := some "http://b", thumbnail := some "tb" }

/-- A raw entry with no url at all. -/
def rvNoUrl : RawVideo :=
  { title := some "c", url := none, thumbnail := none }

/-- A concrete video result. -/
def viC8 : VideoInfo :=
  { title := "t", url := "http://u", thumbnail := some "th" }

/-- Witness for the amended C8 at concrete values. -/
theorem videoinfo_shape_witness :
    (VideoInfo.model_dump viC8).map Prod.fst = ["title", "url", "thumbnail"] ∧
    ¬ "duration" ∈ (VideoInfo.model_dump viC8).map Prod.fst ∧
    buildVideos ([rvGood] ++ rvNoUrl :: [rvGood2])
      = buildVideos ([rvGood] ++ [rvGood2]) :=
  videoinfo_shape viC8 [rvGood] [rvGood2] rvNoUrl (by decide)

/-- Environment for the C9 witness: the model returns a valid, empty
module list. -/
def envC9 : Env :=
  { genResponse := fun _ => .ok (encodeModuleList [])
    search := fun _ => .error "never" }

/-- Witness for C9 at a concrete topic and its differently-written repeat
request. -/
theorem empty_module_list_cached_witness :
    generate_learning_path_stream [] envC9 "Black Holes"
      = (.liveStream (.complete []),
         [(topic_key "Black Holes", ([] : List Module))],
         [.gen (module_prompt "Black Holes")]) ∧
    streamChunks (.complete []) = [] ∧
    generate_learning_path_stream [(topic_key "Black Holes", ([] : List Module))]
        envC9 "  BLACK HOLES  "
      = (.cachedStream [], [(topic_key "Black Holes", ([] : List Module))], []) :=
  empty_module_list_cached [] envC9 envC9 "Black Holes" "  BLACK HOLES  "
    (by decide) rfl rfl (by decide) (by decide)

/-- Environment for the C10 witness. -/
def envC10 : Env :=
  { genResponse := fun _ => .ok (encodeModuleList [])
    search := fun _ => .error "never" }

/-- Witness for C10: the topic has 6 raw characters but its normalized key
has only 2, and the run caches under that key. -/
theorem raw_topic_length_check_witness :
    generate_learning_path_stream [] envC10 "  ab  "
      = (.liveStream (.complete []),
         [(topic_key "  ab  ", ([] : List Module))],
         [.gen (module_prompt "  ab  ")]) ∧
    (topic_key "  ab  ").length < 5 :=
  raw_topic_length_check [] envC10 "  ab  " [] [.gen (module_prompt "  ab  ")]
    (by decide) (by decide) rfl (by decide)

end LearnPath
